import Mathlib

/-!
Shallow embedding of `src/tonic/src/transport/server.rs` (the connection
acceptance and dispatch layer of the tonic server transport).

Modelling conventions:
* Asynchronous computations are modelled at outcome level: a future is
  identified with the value it eventually resolves to (`Except E α`).
* `&mut self` state is made explicit: a tower `Service` becomes a pair of
  state-threaded functions (`pollReady`, `call`); the waker `Context`
  argument carries no data relevant to these claims and is absorbed into
  the state parameter.
* A Rust computation that may `panic!` (here: `.unwrap()` on an `Err`)
  returns a `RustOutcome`.
* The operating system's accept source (hyper's `AddrIncoming`) is a
  finite trace: a `List (Except HE Conn)` of accept events, the end of the
  list being end-of-stream / process teardown.
* External collaborators that live outside the excerpt
  (`super::tls::TlsAcceptor`, hyper's `Server::serve`) are modelled from
  the spec's collaborator contracts; each such definition says so in its
  doc comment.
-/

deriving instance DecidableEq for Except

namespace Tonic

/-- Rust's `std::task::Poll`. -/
inductive Poll (α : Type u) : Type u
  | ready : α → Poll α
  | pending : Poll α
  deriving DecidableEq, Repr

/-- Map a function over a `Poll`. -/
def Poll.map (f : α → β) : Poll α → Poll β
  | .ready a => .ready (f a)
  | .pending => .pending

/-- Outcome of a Rust computation that may panic (`.unwrap()` on an
`Err` value): either it returns a value or the task panics. -/
inductive RustOutcome (α : Type u) : Type u
  | ok : α → RustOutcome α
  | panic : RustOutcome α
  deriving DecidableEq, Repr

/-- `tower::util::Either` (server.rs line 21, used at lines 194, 213, 215):
a two-variant wrapper with variants `A` and `B`. -/
inductive Either (α : Type u) (β : Type v) : Type (max u v)
  | a : α → Either α β
  | b : β → Either α β

/-- A tower `Service` at outcome level: `poll_ready` and `call` with the
`&mut self` state threaded explicitly.  `call` returns the outcome the
returned future eventually resolves to. -/
structure RService (σ Req Res E : Type) : Type where
  pollReady : σ → Poll (Except E Unit) × σ
  call : σ → Req → Except E Res × σ

/-- `BoxService` (server.rs line 25): a type-erased boxed service over the
unified request/response/error types.  The box packages the concrete
service together with its state behind one uniform type. -/
structure BoxService (Req Res CE : Type) : Type 1 where
  State : Type
  svc : RService State Req Res CE
  st : State

/-- `Service::poll_ready` on a `BoxService`: dispatches to the boxed
service. -/
def BoxService.pollReady (b : BoxService Req Res CE) :
    Poll (Except CE Unit) × BoxService Req Res CE :=
  let p := b.svc.pollReady b.st
  (p.1, { b with st := p.2 })

/-- `Service::call` on a `BoxService`: dispatches to the boxed service. -/
def BoxService.call (b : BoxService Req Res CE) (req : Req) :
    Except CE Res × BoxService Req Res CE :=
  let r := b.svc.call b.st req
  (r.1, { b with st := r.2 })

/-- `BoxService::new` (used at server.rs lines 66, 212): boxes a concrete
service (with its current state) into the erased type. -/
def BoxService.new (svc : RService σ Req Res CE) (st : σ) : BoxService Req Res CE :=
  ⟨σ, svc, st⟩

/-- `Interceptor` (server.rs line 26):
`Arc<dyn Layer<BoxService, Service = BoxService>>`, i.e. a shared
transformation from a boxed service to a boxed service. -/
def Interceptor (Req Res CE : Type) : Type 1 :=
  BoxService Req Res CE → BoxService Req Res CE

/-- `Svc<S>` (server.rs lines 159-178): wraps the factory-produced service
`S`, forwarding `poll_ready` and `call` to it and converting its error into
the unified error type with `Into` (`map_err(Into::into)` on the readiness
result and `MapErr<S::Future, _>` on the call future). -/
def Svc (into : E → CE) (S : RService σ Req Res E) : RService σ Req Res CE where
  pollReady s :=
    let p := S.pollReady s
    (p.1.map (Except.mapError into), p.2)
  call s req :=
    let r := S.call s req
    (r.1.mapError into, r.2)

/-- The user-supplied per-connection service factory
`M : Service<(), Response = S>` (server.rs lines 73-75, 185-192) at outcome
level: a readiness probe and `make` — `make_service(())`, i.e. `M::call`
at `()` — whose future resolves to a fresh service together with that
service's initial state. -/
structure MakeFactory (σM σ Req Res ME E : Type) : Type where
  pollReady : σM → Poll (Except ME Unit) × σM
  make : σM → Except ME (RService σ Req Res E × σ) × σM

/-- `MakeSvc<M>` (server.rs lines 180-183): the optional shared interceptor
together with the user factory. -/
structure MakeSvc (σM σ Req Res ME E CE : Type) : Type 1 where
  interceptor : Option (Interceptor Req Res CE)
  inner : MakeFactory σM σ Req Res ME E

/-- The response type of `MakeSvc` (server.rs line 194):
`Either<Svc<S>, BoxService>`.  The `A` variant carries the plain wrapped
service together with its state. -/
def EitherSvc (σ Req Res CE : Type) : Type 1 :=
  Either (RService σ Req Res CE × σ) (BoxService Req Res CE)

/-- `Service::poll_ready` on the `Either` unification (tower's `Either`
`Service` impl, an external collaborator: per spec 4.6 it dispatches each
probe transparently to whichever variant is present). -/
def EitherSvc.pollReady :
    EitherSvc σ Req Res CE → Poll (Except CE Unit) × EitherSvc σ Req Res CE
  | .a p =>
    let r := p.1.pollReady p.2
    (r.1, .a (p.1, r.2))
  | .b bs =>
    let r := bs.pollReady
    (r.1, .b r.2)

/-- `Service::call` on the `Either` unification (tower's `Either` `Service`
impl, an external collaborator: per spec 4.6 it dispatches each call
transparently to whichever variant is present). -/
def EitherSvc.call :
    EitherSvc σ Req Res CE → Req → Except CE Res × EitherSvc σ Req Res CE
  | .a p, req =>
    let r := p.1.call p.2 req
    (r.1, .a (p.1, r.2))
  | .b bs, req =>
    let r := bs.call req
    (r.1, .b r.2)

/-- `MakeSvc::poll_ready` (server.rs lines 199-201):
`MakeService::poll_ready(&mut self.inner, cx).map_err(Into::into)`. -/
def MakeSvc.pollReady (intoM : ME → CE) (m : MakeSvc σM σ Req Res ME E CE)
    (s : σM) : Poll (Except CE Unit) × σM :=
  let p := m.inner.pollReady s
  (p.1.map (Except.mapError intoM), p.2)

/-- `MakeSvc::call` (server.rs lines 203-218): invokes
`self.inner.make_service(())` once, awaits it, converts a factory error via
`Into`, and on success wraps the produced service: with an interceptor
configured the result is `Either::B(interceptor.layer(BoxService::new(Svc(svc))))`,
otherwise `Either::A(Svc(svc))`. -/
def MakeSvc.call (into : E → CE) (intoM : ME → CE)
    (m : MakeSvc σM σ Req Res ME E CE) (s : σM) :
    Except CE (EitherSvc σ Req Res CE) × σM :=
  let made := m.inner.make s
  (match made.1 with
   | .error e => .error (intoM e)
   | .ok svcSt =>
     match m.interceptor with
     | some i => .ok (.b (i (BoxService.new (Svc into svcSt.1) svcSt.2)))
     | none => .ok (.a (Svc into svcSt.1, svcSt.2)),
   made.2)

/-- `Cert` (constructed at server.rs lines 81-85 from the configured TLS
bytes): certificate bytes, optional key bytes, and a domain string. -/
structure Cert : Type where
  ca : List Nat
  key : Option (List Nat)
  domain : String
  deriving DecidableEq, Repr

/-- Modelled from the spec (4.2 Encryption Upgrader): the TLS acceptor
produced by `super::tls::TlsAcceptor` (outside the excerpt), identified
with its `connect` upgrade function: given one accepted raw connection it
eventually yields an encrypted stream or fails that single connection. -/
def TlsAcceptor (Conn TlsIo CE : Type) : Type :=
  Conn → Except CE TlsIo

/-- `BoxedIo` (from `super::service`, constructed at server.rs lines 125
and 127): the erased byte-stream handle, wrapping either the raw TCP
stream or the TLS-upgraded stream. -/
inductive BoxedIo (Conn TlsIo : Type) : Type
  | plain : Conn → BoxedIo Conn TlsIo
  | tls : TlsIo → BoxedIo Conn TlsIo
  deriving DecidableEq, Repr

/-- `TcpIncoming::bind` (server.rs lines 139-143):
`AddrIncoming::bind(&addr).map_err(Box::new)?`.  The OS listener is
identified with the trace of accept events it will deliver; a bind failure
is converted into the unified error type with `boxE` (`Box::new`). -/
def TcpIncoming.bind (boxE : HE → CE)
    (bindRes : Except HE (List (Except HE Conn))) :
    Except CE (List (Except HE Conn)) :=
  bindRes.mapError boxE

/-- `TcpIncoming`'s `Stream` impl (server.rs lines 146-156): each accept
event is forwarded, `Some(Ok(s))` as is and `Some(Err(e))` as
`Some(Err(e.into()))`; the stream itself continues past an error item
(`poll_next` never ends the stream on an `Err`). -/
def TcpIncoming.stream (intoE : HE → CE) (events : List (Except HE Conn)) :
    List (Except CE Conn) :=
  events.map (Except.mapError intoE)

/-- The body of the `try_stream!` loop in `incoming` (server.rs lines
122-129) after a successful bind, consuming the `TcpIncoming` items:
`tcp.try_next().await?` ends the generated stream with one `Err` item at
the first error; an `Ok` connection is TLS-upgraded when an acceptor is
configured (`tls.connect(stream.into_inner()).await?`, again ending the
stream on failure) and yielded as a `BoxedIo`. -/
def incomingLoop (tls : Option (TlsAcceptor Conn TlsIo CE)) :
    List (Except CE Conn) → List (Except CE (BoxedIo Conn TlsIo))
  | [] => []
  | .error e :: _ => [.error e]
  | .ok c :: rest =>
    match tls with
    | some t =>
      match t c with
      | .error e => [.error e]
      | .ok io => .ok (BoxedIo.tls io) :: incomingLoop (some t) rest
    | none => .ok (BoxedIo.plain c) :: incomingLoop none rest

/-- `incoming` (server.rs lines 115-131): the composed incoming stream.
`TcpIncoming::bind(addr)?` runs at the first poll; a bind failure becomes
the single `Err` item of the stream; otherwise the accepted connections
are routed through `incomingLoop`. -/
def incoming (intoE boxE : HE → CE)
    (bindRes : Except HE (List (Except HE Conn)))
    (tls : Option (TlsAcceptor Conn TlsIo CE)) :
    List (Except CE (BoxedIo Conn TlsIo)) :=
  match TcpIncoming.bind boxE bindRes with
  | .error e => [.error e]
  | .ok events => incomingLoop tls (TcpIncoming.stream intoE events)

/-- Modelled from the spec (6: protocol engine collaborator; hyper's
`Server::serve` over `accept::from_stream`, external to the excerpt): the
engine pulls the incoming sequence; for each `Ok` stream it invokes the
make-service once and drives the connection in an independently spawned
task whose outcome does not influence the engine's return value; an `Err`
item from the accept source makes `serve` return that error; when the
source ends, `serve` returns `Ok`.  Readiness polling of the make-service
between connections is elided: the model keeps only the one `make`
invocation per accepted connection. -/
def hyperServe (into : E → CE) (intoM : ME → CE)
    (mk : MakeSvc σM σ Req Res ME E CE) :
    σM → List (Except CE Io) → Except CE Unit × σM
  | s, [] => (.ok (), s)
  | s, .ok _ :: rest => hyperServe into intoM mk (MakeSvc.call into intoM mk s).2 rest
  | s, .error e :: _ => (.error e, s)

/-- `Builder` (server.rs lines 37-41): optional TLS material (certificate
bytes, key bytes) and optional interceptor. -/
structure Builder (Req Res CE : Type) : Type 1 where
  tls : Option (List Nat × List Nat)
  interceptor : Option (Interceptor Req Res CE)

/-- `Builder::tls` (server.rs lines 48-51): sets the TLS material, last
write wins. -/
def Builder.setTls (b : Builder Req Res CE) (pem key : List Nat) :
    Builder Req Res CE :=
  { b with tls := some (pem, key) }

/-- `Builder::serve` (server.rs lines 71-106).  Step by step, as in the
source: if TLS material is configured, build the `Cert` (lines 81-85) and
run `TlsAcceptor::new(cert).unwrap()` — a parse/validation failure panics
(line 87); then hand the lazily-bound `incoming` stream and the `MakeSvc`
wrapper (lines 92-97) to the protocol engine and `.await.unwrap()` its
result (lines 99-103) — an engine error panics; finally return `Ok(())`
(line 105).  `tlsNew` is the external `TlsAcceptor::new` constructor
(modelled from the spec, see `TlsAcceptor`); `bindRes` is the outcome of
binding the listen address together with the accept-event trace the OS
will deliver. -/
def Builder.serve (b : Builder Req Res CE)
    (inner : MakeFactory σM σ Req Res ME E)
    (into : E → CE) (intoM : ME → CE) (intoE boxE : HE → CE)
    (tlsNew : Cert → Except CE (TlsAcceptor Conn TlsIo CE))
    (bindRes : Except HE (List (Except HE Conn)))
    (s0 : σM) :
    RustOutcome (Except CE Unit) :=
  match
    match b.tls with
    | some pemKey =>
      match tlsNew { ca := pemKey.1, key := some pemKey.2, domain := "" } with
      | .error _ => none
      | .ok t => some (some t)
    | none => some none
  with
  | none => .panic
  | some tls =>
    match (hyperServe into intoM (⟨b.interceptor, inner⟩ : MakeSvc σM σ Req Res ME E CE)
        s0 (incoming intoE boxE bindRes tls)).1 with
    | .error _ => .panic
    | .ok _ => .ok (.ok ())

/-! Concrete instances used to exercise the model in witnesses and
counterexamples.  All type parameters are instantiated at `Nat`. -/

/-- A concrete user service over naturals: replies `req + 1` and counts its
calls in its state. -/
def natService : RService Nat Nat Nat Nat where
  pollReady s := (.ready (.ok ()), s)
  call s req := (.ok (req + 1), s + 1)

/-- A concrete factory: always ready; each `make` increments its counter
state and produces a fresh `natService` with initial state `0`. -/
def natFactory : MakeFactory Nat Nat Nat Nat Nat Nat where
  pollReady s := (.ready (.ok ()), s)
  make s := (.ok (natService, 0), s + 1)

/-- A concrete factory whose `make` always fails with error `42`, still
counting its invocations in its state. -/
def failFactory : MakeFactory Nat Nat Nat Nat Nat Nat where
  pollReady s := (.ready (.ok ()), s)
  make s := (.error 42, s + 1)

/-- A concrete TLS acceptor: the handshake on connection `1` fails with
error `9`; any other connection `c` upgrades to stream `c + 100`. -/
def flakyTls : TlsAcceptor Nat Nat Nat := fun c =>
  if c = 1 then .error 9 else .ok (c + 100)

/-- A concrete interceptor: the identity transformation on boxed
services. -/
def natInterceptor : Interceptor Nat Nat Nat := fun bs => bs

/-- A TLS constructor that always fails: malformed material. -/
def tlsNewFail : Cert → Except Nat (TlsAcceptor Nat Nat Nat) := fun _ => .error 11

/-- A TLS constructor that always succeeds, yielding `flakyTls`. -/
def tlsNewOk : Cert → Except Nat (TlsAcceptor Nat Nat Nat) := fun _ => .ok flakyTls

/-! Helper lemmas about the incoming pipeline and the engine loop. -/

/-- `TcpIncoming` forwards error-free event lists unchanged. -/
theorem stream_map_ok (intoE : HE → CE) (cs : List Conn) :
    TcpIncoming.stream intoE (cs.map Except.ok) = cs.map Except.ok := by
  simp only [TcpIncoming.stream, List.map_map]
  exact List.map_congr_left fun a _ => rfl

/-- `incomingLoop` without TLS wraps every connection of an error-free
event list in `BoxedIo.plain`. -/
theorem incomingLoop_none_map_ok (cs : List Conn) :
    incomingLoop (none : Option (TlsAcceptor Conn TlsIo CE)) (cs.map Except.ok) =
      cs.map (fun c => Except.ok (BoxedIo.plain c)) := by
  induction cs with
  | nil => rfl
  | cons c rest ih => simpa [incomingLoop] using ih

/-- `incomingLoop` without TLS forwards an error-free prefix and then
terminates with the single error item. -/
theorem incomingLoop_none_error_after (cs : List Conn) (e : CE)
    (rest : List (Except CE Conn)) :
    incomingLoop (none : Option (TlsAcceptor Conn TlsIo CE))
      (cs.map Except.ok ++ Except.error e :: rest) =
      cs.map (fun c => Except.ok (BoxedIo.plain c)) ++ [Except.error e] := by
  induction cs with
  | nil => rfl
  | cons c tl ih => simpa [incomingLoop] using ih

/-- The engine loop returns `Ok` when the incoming sequence is error-free,
whatever the make-service does for each connection. -/
theorem hyperServe_map_ok (into : E → CE) (intoM : ME → CE)
    (mk : MakeSvc σM σ Req Res ME E CE) (s : σM) (ios : List Io) :
    (hyperServe into intoM mk s (ios.map Except.ok)).1 = Except.ok () := by
  induction ios generalizing s with
  | nil => rfl
  | cons io rest ih => simpa [hyperServe] using ih _

/-- The engine loop returns the first error of the incoming sequence. -/
theorem hyperServe_error_after (into : E → CE) (intoM : ME → CE)
    (mk : MakeSvc σM σ Req Res ME E CE) (s : σM) (ios : List Io) (e : CE)
    (rest : List (Except CE Io)) :
    (hyperServe into intoM mk s (ios.map Except.ok ++ Except.error e :: rest)).1 =
      Except.error e := by
  induction ios generalizing s with
  | nil => rfl
  | cons io tl ih => simpa [hyperServe] using ih _

/-- The cleartext incoming stream of an error-free accept trace wraps
every connection in `BoxedIo.plain`. -/
theorem incoming_cleartext_ok (intoE boxE : HE → CE) (cs : List Conn) :
    incoming intoE boxE (Except.ok (cs.map Except.ok))
      (none : Option (TlsAcceptor Conn TlsIo CE)) =
      (cs.map (fun c => (BoxedIo.plain c : BoxedIo Conn TlsIo))).map Except.ok := by
  induction cs with
  | nil => rfl
  | cons a tl ih =>
    show Except.ok (BoxedIo.plain a) ::
      incoming intoE boxE (Except.ok (tl.map Except.ok)) none = _
    rw [ih]
    rfl

/-- The cleartext incoming stream of a trace with an accept error after an
error-free prefix ends with that single error item. -/
theorem incoming_cleartext_split (intoE boxE : HE → CE) (cs : List Conn)
    (e : HE) (rest : List (Except HE Conn)) :
    incoming intoE boxE (Except.ok (cs.map Except.ok ++ Except.error e :: rest))
      (none : Option (TlsAcceptor Conn TlsIo CE)) =
      (cs.map (fun c => (BoxedIo.plain c : BoxedIo Conn TlsIo))).map Except.ok ++
        Except.error (intoE e) :: [] := by
  induction cs with
  | nil => rfl
  | cons a tl ih =>
    show Except.ok (BoxedIo.plain a) ::
      incoming intoE boxE (Except.ok (tl.map Except.ok ++ Except.error e :: rest))
        none = _
    rw [ih]
    rfl

/-- `incoming` on a successful bind is `incomingLoop` over the
`TcpIncoming` stream of the delivered events. -/
theorem incoming_ok_events (intoE boxE : HE → CE)
    (events : List (Except HE Conn))
    (tls : Option (TlsAcceptor Conn TlsIo CE)) :
    incoming intoE boxE (Except.ok events) tls =
      incomingLoop tls (TcpIncoming.stream intoE events) := rfl

/-- `TcpIncoming` forwards an error-free prefix unchanged, ahead of an
arbitrary tail of events. -/
theorem stream_split_ok (intoE : HE → CE) (cs : List Conn)
    (tail : List (Except HE Conn)) :
    TcpIncoming.stream intoE (cs.map Except.ok ++ tail) =
      cs.map Except.ok ++ TcpIncoming.stream intoE tail := by
  simp only [TcpIncoming.stream, List.map_append]
  exact congrArg (· ++ List.map (Except.mapError intoE) tail) (stream_map_ok intoE cs)

/-- `incomingLoop` with TLS upgrades every connection of an error-free
event list when every handshake succeeds. -/
theorem incomingLoop_tls_map_ok (t : TlsAcceptor Conn TlsIo CE)
    (u : Conn → TlsIo) (cs : List Conn)
    (hcs : ∀ c ∈ cs, t c = Except.ok (u c)) :
    incomingLoop (some t) (cs.map Except.ok) =
      (cs.map (fun c => BoxedIo.tls (u c))).map Except.ok := by
  induction cs with
  | nil => rfl
  | cons a tl ih =>
    have ha := hcs a (by simp)
    simp only [List.map_cons, incomingLoop, ha]
    exact congrArg _ (ih fun c hc => hcs c (by simp [hc]))

/-- `incomingLoop` with TLS forwards the upgraded error-free prefix and
then terminates with the single item produced by an accept error. -/
theorem incomingLoop_tls_accept_error (t : TlsAcceptor Conn TlsIo CE)
    (u : Conn → TlsIo) (cs : List Conn)
    (hcs : ∀ c ∈ cs, t c = Except.ok (u c)) (ce : CE)
    (rest : List (Except CE Conn)) :
    incomingLoop (some t) (cs.map Except.ok ++ Except.error ce :: rest) =
      (cs.map (fun c => BoxedIo.tls (u c))).map Except.ok ++
        Except.error ce :: [] := by
  induction cs with
  | nil => rfl
  | cons a tl ih =>
    have ha := hcs a (by simp)
    simp only [List.map_cons, List.cons_append, incomingLoop, ha]
    exact congrArg _ (ih fun c hc => hcs c (by simp [hc]))

/-- `incomingLoop` with TLS forwards the upgraded error-free prefix and
then terminates with the single item produced by a failed handshake. -/
theorem incomingLoop_tls_upgrade_error (t : TlsAcceptor Conn TlsIo CE)
    (u : Conn → TlsIo) (cs : List Conn)
    (hcs : ∀ c ∈ cs, t c = Except.ok (u c))
    (c : Conn) (ce : CE) (hc : t c = Except.error ce)
    (rest : List (Except CE Conn)) :
    incomingLoop (some t) (cs.map Except.ok ++ Except.ok c :: rest) =
      (cs.map (fun c' => BoxedIo.tls (u c'))).map Except.ok ++
        Except.error ce :: [] := by
  induction cs with
  | nil => simp [incomingLoop, hc]
  | cons a tl ih =>
    have ha := hcs a (by simp)
    simp only [List.map_cons, List.cons_append, incomingLoop, ha]
    exact congrArg _ (ih fun c' hc' => hcs c' (by simp [hc']))

/-- `serve` on a cleartext builder reduces to the engine loop over the
cleartext incoming stream. -/
theorem serve_cleartext (b : Builder Req Res CE) (hb : b.tls = none)
    (inner : MakeFactory σM σ Req Res ME E)
    (into : E → CE) (intoM : ME → CE) (intoE boxE : HE → CE)
    (tlsNew : Cert → Except CE (TlsAcceptor Conn TlsIo CE))
    (bindRes : Except HE (List (Except HE Conn))) (s0 : σM) :
    b.serve inner into intoM intoE boxE tlsNew bindRes s0 =
      match (hyperServe into intoM ⟨b.interceptor, inner⟩ s0
        (incoming intoE boxE bindRes (none : Option (TlsAcceptor Conn TlsIo CE)))).1 with
      | .error _ => RustOutcome.panic
      | .ok _ => RustOutcome.ok (.ok ()) := by
  simp only [Builder.serve, hb]

/-- `serve` on a builder whose TLS material validates reduces to the
engine loop over the TLS incoming stream. -/
theorem serve_tls_ok (b : Builder Req Res CE) (pem key : List Nat)
    (hb : b.tls = some (pem, key))
    (inner : MakeFactory σM σ Req Res ME E)
    (into : E → CE) (intoM : ME → CE) (intoE boxE : HE → CE)
    (tlsNew : Cert → Except CE (TlsAcceptor Conn TlsIo CE))
    (t : TlsAcceptor Conn TlsIo CE)
    (htls : tlsNew { ca := pem, key := some key, domain := "" } = Except.ok t)
    (bindRes : Except HE (List (Except HE Conn))) (s0 : σM) :
    b.serve inner into intoM intoE boxE tlsNew bindRes s0 =
      match (hyperServe into intoM ⟨b.interceptor, inner⟩ s0
        (incoming intoE boxE bindRes (some t))).1 with
      | .error _ => RustOutcome.panic
      | .ok _ => RustOutcome.ok (.ok ()) := by
  simp [Builder.serve, hb, htls]

/-! Claim theorems. -/

/-- C1, counterexample: with configured TLS material whose validation
fails, `serve` does not return a SetupError-kind error value — the result
is `RustOutcome.panic` (the `.unwrap()` at server.rs line 87), not
`RustOutcome.ok (Except.error _)` as the claim requires. -/
theorem C1_counterexample :
    Builder.serve ⟨some ([0], [1]), none⟩ natFactory id id id id tlsNewFail
      (Except.ok []) 0 = RustOutcome.panic := rfl

/-- C1, amended: if the configured TLS material fails to parse/validate,
`serve` aborts by panicking (unwrap of the `TlsAcceptor::new` error)
before any Acceptor bind at the listen address occurs: the outcome is
`panic` for every bind outcome and accept trace `bindRes`, so the bind is
never consulted (no partial startup) — but no error value is returned. -/
theorem C1_tls_failure_panics_before_bind
    (b : Builder Req Res CE) (inner : MakeFactory σM σ Req Res ME E)
    (into : E → CE) (intoM : ME → CE) (intoE boxE : HE → CE)
    (tlsNew : Cert → Except CE (TlsAcceptor Conn TlsIo CE))
    (pem key : List Nat) (e : CE)
    (hb : b.tls = some (pem, key))
    (htls : tlsNew { ca := pem, key := some key, domain := "" } = Except.error e)
    (bindRes : Except HE (List (Except HE Conn))) (s0 : σM) :
    b.serve inner into intoM intoE boxE tlsNew bindRes s0 = RustOutcome.panic := by
  simp [Builder.serve, hb, htls]

/-- C1, witness: concrete malformed TLS material makes `serve` panic even
on a bind that would itself have failed (the bind outcome is irrelevant). -/
theorem C1_witness :
    Builder.serve ⟨some ([2], [3]), none⟩ natFactory id id id id tlsNewFail
      (Except.error 4) 0 = RustOutcome.panic :=
  C1_tls_failure_panics_before_bind _ _ _ _ _ _ _ [2] [3] 11 rfl rfl _ _

/-- C2, counterexample: with a failing bind, `serve` does not return a
SetupError-kind error value — it panics (the `.unwrap()` at server.rs
line 103 after hyper's serve returns the error the incoming stream
yielded), refuting the claim that `serve` returns a SetupError value. -/
theorem C2_counterexample :
    Builder.serve ⟨none, none⟩ natFactory id id id id tlsNewOk
      (Except.error 5) 0 = RustOutcome.panic := rfl

/-- C2, amended: when binding the Acceptor fails, the bind error is
yielded as the single item of the incoming stream (never after any
accepted connection, so never as an AcceptError mid-loop), the protocol
engine returns it, and `serve` aborts before serving starts — by panicking
on the unwrap rather than by returning a SetupError value. -/
theorem C2_bind_failure_aborts
    (b : Builder Req Res CE) (inner : MakeFactory σM σ Req Res ME E)
    (into : E → CE) (intoM : ME → CE) (intoE boxE : HE → CE)
    (tlsNew : Cert → Except CE (TlsAcceptor Conn TlsIo CE))
    (e : HE) (s0 : σM)
    (hok : b.tls = none ∨ ∃ pem key t, b.tls = some (pem, key) ∧
        tlsNew { ca := pem, key := some key, domain := "" } = Except.ok t) :
    (∀ tls : Option (TlsAcceptor Conn TlsIo CE),
        incoming intoE boxE (Except.error e) tls = [Except.error (boxE e)]) ∧
    b.serve inner into intoM intoE boxE tlsNew (Except.error e) s0 =
      RustOutcome.panic := by
  refine ⟨fun tls => rfl, ?_⟩
  rcases hok with hb | ⟨pem, key, t, hb, htls⟩
  · rw [serve_cleartext b hb]
    rfl
  · rw [serve_tls_ok b pem key hb inner into intoM intoE boxE tlsNew t htls]
    rfl

/-- C2, witness: with valid TLS material configured and an address whose
bind fails with error `5`, the incoming stream is the single item
`Err 5` and `serve` panics. -/
theorem C2_witness :
    Builder.serve ⟨some ([5], [6]), none⟩ natFactory id id id id tlsNewOk
      (Except.error 5) 0 = RustOutcome.panic ∧
    incoming id id (Except.error 5) (some flakyTls) = [Except.error 5] :=
  ⟨(C2_bind_failure_aborts _ _ _ _ _ _ _ 5 0
      (Or.inr ⟨[5], [6], flakyTls, rfl, rfl⟩)).2,
   (C2_bind_failure_aborts ⟨some ([5], [6]), none⟩ natFactory id id id id
      tlsNewOk 5 0 (Or.inr ⟨[5], [6], flakyTls, rfl, rfl⟩)).1 (some flakyTls)⟩

/-- C3, counterexample: after the OS delivers an accept error (event
`Err 7`) followed by a ready connection (`Ok 5`), the composed incoming
sequence is exactly `[Err 7]`: it ends after the error item and the later
connection is never yielded as an `Ok` item, refuting the claim. -/
theorem C3_counterexample :
    incoming id id (Except.ok [Except.error 7, Except.ok 5]) (none : Option (TlsAcceptor Nat Nat Nat)) =
      [Except.error 7] ∧
    (Except.ok (BoxedIo.plain 5) : Except Nat (BoxedIo Nat Nat)) ∉
      incoming id id (Except.ok [Except.error 7, Except.ok 5]) (none : Option (TlsAcceptor Nat Nat Nat)) := by
  exact ⟨rfl, by decide⟩

/-- C3, amended: the raw `TcpIncoming` stream does keep going past an
accept error — every event after the error is still forwarded — but the
composed incoming sequence (the `try_stream!` with `?` at server.rs line
122) yields the first error as its final item and ends: later connections
are not yielded by it. -/
theorem C3_acceptor_continues_incoming_stops
    (intoE : HE → CE) (pre post : List (Except HE Conn)) (e : HE)
    (tls : Option (TlsAcceptor Conn TlsIo CE)) (ce : CE)
    (rest : List (Except CE Conn)) :
    TcpIncoming.stream intoE (pre ++ Except.error e :: post) =
      TcpIncoming.stream intoE pre ++
        Except.error (intoE e) :: TcpIncoming.stream intoE post ∧
    incomingLoop tls (Except.error ce :: rest) = [Except.error ce] := by
  exact ⟨by simp [TcpIncoming.stream, Except.mapError], rfl⟩

/-- C4, counterexample: with TLS configured, accepted connection `1`
fails its handshake (`Err 9`) and the composed sequence terminates: the
later accepted connection `2` (which would upgrade to stream `102`) is
never upgraded and never yielded, refuting the claim that subsequent
connections are still yielded as `Ok` items. -/
theorem C4_counterexample :
    incoming id id (Except.ok [Except.ok 1, Except.ok 2]) (some flakyTls) =
      [Except.error 9] ∧
    (Except.ok (BoxedIo.tls 102) : Except Nat (BoxedIo Nat Nat)) ∉
      incoming id id (Except.ok [Except.ok 1, Except.ok 2]) (some flakyTls) := by
  exact ⟨rfl, by decide⟩

/-- C4, amended: in the composed pipeline with encryption configured, a
TLS upgrade failure is surfaced as exactly one `Err` item — after the
`Ok` items of the earlier successfully upgraded connections — and the
sequence then terminates: subsequent accepted connections are not
upgraded or yielded. -/
theorem C4_upgrade_failure_one_err_then_end
    (t : TlsAcceptor Conn TlsIo CE) (u : Conn → TlsIo) (cs : List Conn)
    (hcs : ∀ c ∈ cs, t c = Except.ok (u c))
    (c : Conn) (e : CE) (h : t c = Except.error e)
    (rest : List (Except CE Conn)) :
    incomingLoop (some t) (cs.map Except.ok ++ Except.ok c :: rest) =
      cs.map (fun c' => Except.ok (BoxedIo.tls (u c'))) ++ [Except.error e] := by
  induction cs with
  | nil => simp [incomingLoop, h]
  | cons a tl ih =>
    have ha := hcs a (by simp)
    simp only [List.map_cons, List.cons_append, incomingLoop, ha]
    exact congrArg _ (ih fun c' hc' => hcs c' (by simp [hc']))

/-- C4, witness: connection `2` upgrades fine, connection `1` fails its
handshake, and the sequence is `[Ok (tls 102), Err 9]` — the trailing
accepted connection `3` is gone. -/
theorem C4_witness :
    incomingLoop (some flakyTls) [Except.ok 2, Except.ok 1, Except.ok 3] =
      [Except.ok (BoxedIo.tls 102), Except.error 9] :=
  C4_upgrade_failure_one_err_then_end flakyTls (fun c => c + 100) [2]
    (by decide) 1 9 (by decide) [Except.ok 3]

/-- C5, counterexample: two runs whose startup succeeds.  In the first
(cleartext, bind ok) the OS delivers an accept error followed by a ready
connection; in the second (TLS material configured and validating,
bind ok) connection `2` upgrades fine and connection `1` fails its
handshake.  In both runs `serve` terminates abnormally (panics) because
of that single per-connection accept/handshake error — refuting the
claim that, once startup succeeds, `serve` only ever ends with process
teardown. -/
theorem C5_counterexample :
    Builder.serve ⟨none, none⟩ failFactory id id id id tlsNewOk
      (Except.ok [Except.error 3, Except.ok 4]) 0 = RustOutcome.panic ∧
    Builder.serve ⟨some ([0], [1]), none⟩ failFactory id id id id tlsNewOk
      (Except.ok [Except.ok 2, Except.ok 1, Except.ok 3]) 0 =
      RustOutcome.panic := ⟨rfl, rfl⟩

/-- C5, amended: once startup succeeds — cleartext, or TLS material that
validates — `serve` returns `Ok(())` when the accept trace ends without
an accept or handshake error, whatever the per-connection factory does
(so factory and service failures indeed never cause a return); but the
first accept error, and likewise the first handshake error under TLS,
terminates `serve` abnormally (panic on the unwrap of the engine error)
instead of being survived. -/
theorem C5_serve_termination
    (b : Builder Req Res CE) (inner : MakeFactory σM σ Req Res ME E)
    (into : E → CE) (intoM : ME → CE) (intoE boxE : HE → CE)
    (tlsNew : Cert → Except CE (TlsAcceptor Conn TlsIo CE)) (s0 : σM)
    (cs : List Conn) (e : HE) (rest : List (Except HE Conn))
    (pem key : List Nat) (t : TlsAcceptor Conn TlsIo CE) (u : Conn → TlsIo)
    (c : Conn) (ce : CE) :
    (b.tls = none →
      b.serve inner into intoM intoE boxE tlsNew
        (Except.ok (cs.map Except.ok)) s0 = RustOutcome.ok (Except.ok ()) ∧
      b.serve inner into intoM intoE boxE tlsNew
        (Except.ok (cs.map Except.ok ++ Except.error e :: rest)) s0 =
        RustOutcome.panic) ∧
    (b.tls = some (pem, key) →
     tlsNew { ca := pem, key := some key, domain := "" } = Except.ok t →
     (∀ c' ∈ cs, t c' = Except.ok (u c')) →
      b.serve inner into intoM intoE boxE tlsNew
        (Except.ok (cs.map Except.ok)) s0 = RustOutcome.ok (Except.ok ()) ∧
      b.serve inner into intoM intoE boxE tlsNew
        (Except.ok (cs.map Except.ok ++ Except.error e :: rest)) s0 =
        RustOutcome.panic ∧
      (t c = Except.error ce →
        b.serve inner into intoM intoE boxE tlsNew
          (Except.ok (cs.map Except.ok ++ Except.ok c :: rest)) s0 =
          RustOutcome.panic)) := by
  constructor
  · intro hb
    constructor
    · rw [serve_cleartext b hb inner into intoM intoE boxE tlsNew
        (Except.ok (cs.map Except.ok)) s0, incoming_cleartext_ok, hyperServe_map_ok]
    · rw [serve_cleartext b hb inner into intoM intoE boxE tlsNew
        (Except.ok (cs.map Except.ok ++ Except.error e :: rest)) s0,
        incoming_cleartext_split, hyperServe_error_after]
  · intro hb htls hcs
    refine ⟨?_, ?_, fun hc => ?_⟩
    · rw [serve_tls_ok b pem key hb inner into intoM intoE boxE tlsNew t htls
        (Except.ok (cs.map Except.ok)) s0]
      have hinc : incoming intoE boxE (Except.ok (cs.map Except.ok)) (some t) =
          (cs.map (fun c' => BoxedIo.tls (u c'))).map Except.ok := by
        rw [incoming_ok_events, stream_map_ok]
        exact incomingLoop_tls_map_ok t u cs hcs
      rw [hinc, hyperServe_map_ok]
    · rw [serve_tls_ok b pem key hb inner into intoM intoE boxE tlsNew t htls
        (Except.ok (cs.map Except.ok ++ Except.error e :: rest)) s0]
      have hinc : incoming intoE boxE
          (Except.ok (cs.map Except.ok ++ Except.error e :: rest)) (some t) =
          (cs.map (fun c' => BoxedIo.tls (u c'))).map Except.ok ++
            Except.error (intoE e) :: [] := by
        rw [incoming_ok_events, stream_split_ok]
        exact incomingLoop_tls_accept_error t u cs hcs (intoE e)
          (TcpIncoming.stream intoE rest)
      rw [hinc, hyperServe_error_after]
    · rw [serve_tls_ok b pem key hb inner into intoM intoE boxE tlsNew t htls
        (Except.ok (cs.map Except.ok ++ Except.ok c :: rest)) s0]
      have hinc : incoming intoE boxE
          (Except.ok (cs.map Except.ok ++ Except.ok c :: rest)) (some t) =
          (cs.map (fun c' => BoxedIo.tls (u c'))).map Except.ok ++
            Except.error ce :: [] := by
        rw [incoming_ok_events, stream_split_ok]
        exact incomingLoop_tls_upgrade_error t u cs hcs c ce hc
          (TcpIncoming.stream intoE rest)
      rw [hinc, hyperServe_error_after]

/-- C5, witness: with a factory that always fails, `serve` still returns
`Ok(())` at teardown of an error-free cleartext trace of two connections
and of an error-free TLS trace whose one connection upgrades; with a
handshake failure on the second TLS connection, it panics. -/
theorem C5_witness :
    Builder.serve ⟨none, none⟩ failFactory id id id id tlsNewOk
      (Except.ok [Except.ok 4, Except.ok 8]) 0 = RustOutcome.ok (Except.ok ()) ∧
    Builder.serve ⟨some ([7], [8]), none⟩ failFactory id id id id tlsNewOk
      (Except.ok [Except.ok 2]) 0 = RustOutcome.ok (Except.ok ()) ∧
    Builder.serve ⟨some ([7], [8]), none⟩ failFactory id id id id tlsNewOk
      (Except.ok [Except.ok 2, Except.ok 1]) 0 = RustOutcome.panic :=
  ⟨((C5_serve_termination ⟨none, none⟩ failFactory id id id id tlsNewOk 0
      [4, 8] 3 [] [0] [1] flakyTls (fun c => c + 100) 1 9).1 rfl).1,
   ((C5_serve_termination ⟨some ([7], [8]), none⟩ failFactory id id id id
      tlsNewOk 0 [2] 3 [] [7] [8] flakyTls (fun c => c + 100) 1 9).2 rfl rfl
      (by decide)).1,
   ((C5_serve_termination ⟨some ([7], [8]), none⟩ failFactory id id id id
      tlsNewOk 0 [2] 3 [] [7] [8] flakyTls (fun c => c + 100) 1 9).2 rfl rfl
      (by decide)).2.2 (by decide)⟩

/-- C6: when no interceptor is configured, `MakeSvc::call` produces
`Either::A(Svc(svc))` around the factory's service, and `Svc` is a pure
passthrough: its `call` and `poll_ready` results equal the wrapped
service's with only the error value converted by `Into` (and the same
state evolution), so request/response behavior is identical to the
factory-produced service itself. -/
theorem C6_no_interceptor_is_passthrough
    (m : MakeSvc σM σ Req Res ME E CE) (into : E → CE) (intoM : ME → CE)
    (s s' : σM) (svc : RService σ Req Res E) (st : σ)
    (hint : m.interceptor = none)
    (hmk : m.inner.make s = (Except.ok (svc, st), s')) :
    MakeSvc.call into intoM m s =
      (Except.ok (Either.a (Svc into svc, st)), s') ∧
    (∀ st0 req, (Svc into svc).call st0 req =
      ((svc.call st0 req).1.mapError into, (svc.call st0 req).2)) ∧
    (∀ st0, (Svc into svc).pollReady st0 =
      ((svc.pollReady st0).1.map (Except.mapError into), (svc.pollReady st0).2)) := by
  refine ⟨?_, fun st0 req => rfl, fun st0 => rfl⟩
  simp [MakeSvc.call, hmk, hint]

/-- C6, witness: the concrete factory without interceptor yields the plain
`Either.a` wrapping of its fresh service, after exactly one `make`. -/
theorem C6_witness :
    MakeSvc.call id id ⟨none, natFactory⟩ 0 =
      (Except.ok (Either.a (Svc id natService, 0)), 1) :=
  (C6_no_interceptor_is_passthrough ⟨none, natFactory⟩ id id 0 1 natService 0
    rfl rfl).1

/-- C7: for each connection handed to `MakeSvc::call`, the user factory's
`make_service` is invoked exactly once — the factory's state after the
call is its state after a single `make` — and a factory failure is
converted via `Into` and surfaced as the `Err` result of this one
connection's service construction (other connections run `MakeSvc::call`
on their own, unaffected). -/
theorem C7_factory_invoked_once_and_error_converted
    (m : MakeSvc σM σ Req Res ME E CE) (into : E → CE) (intoM : ME → CE)
    (s : σM) :
    (MakeSvc.call into intoM m s).2 = (m.inner.make s).2 ∧
    ∀ e, (m.inner.make s).1 = Except.error e →
      (MakeSvc.call into intoM m s).1 = Except.error (intoM e) := by
  refine ⟨rfl, fun e he => ?_⟩
  simp [MakeSvc.call, he]

/-- C7, witness: a counting factory that always fails shows one `make`
invocation (counter goes from 0 to 1) and the converted error `42` as the
construction result. -/
theorem C7_witness :
    (MakeSvc.call id id ⟨none, failFactory⟩ 0).2 = 1 ∧
    (MakeSvc.call id id ⟨none, failFactory⟩ 0).1 = Except.error 42 :=
  ⟨(C7_factory_invoked_once_and_error_converted ⟨none, failFactory⟩ id id 0).1.trans
      rfl,
   (C7_factory_invoked_once_and_error_converted ⟨none, failFactory⟩ id id 0).2
      42 rfl⟩

/-- C8: the unified `Either` handle dispatches `poll_ready` and `call`
transparently to whichever variant it holds (readiness outcomes,
responses, errors and state evolution all equal the variant's own), and
both variants produced by `MakeSvc::call` convert the factory service's
errors the same way: the `A` variant is `Svc(svc)` and the `B` variant
boxes the same `Svc(svc)` before the interceptor is layered on top. -/
theorem C8_either_dispatch
    (svc : RService σ Req Res CE) (st : σ) (bs : BoxService Req Res CE)
    (req : Req) (m : MakeSvc σM σ Req Res ME E CE)
    (into : E → CE) (intoM : ME → CE) (s s' : σM)
    (svc0 : RService σ Req Res E) (st0 : σ)
    (hmk : m.inner.make s = (Except.ok (svc0, st0), s')) :
    EitherSvc.pollReady (Either.a (svc, st)) =
      ((svc.pollReady st).1, Either.a (svc, (svc.pollReady st).2)) ∧
    EitherSvc.call (Either.a (svc, st)) req =
      ((svc.call st req).1, Either.a (svc, (svc.call st req).2)) ∧
    EitherSvc.pollReady (Either.b bs : EitherSvc σ Req Res CE) =
      (bs.pollReady.1, Either.b bs.pollReady.2) ∧
    EitherSvc.call (Either.b bs : EitherSvc σ Req Res CE) req =
      ((bs.call req).1, Either.b (bs.call req).2) ∧
    (m.interceptor = none →
      (MakeSvc.call into intoM m s).1 =
        Except.ok (Either.a (Svc into svc0, st0))) ∧
    ∀ i, m.interceptor = some i →
      (MakeSvc.call into intoM m s).1 =
        Except.ok (Either.b (i (BoxService.new (Svc into svc0) st0))) := by
  refine ⟨rfl, rfl, rfl, rfl, fun hint => ?_, fun i hint => ?_⟩
  · simp [MakeSvc.call, hmk, hint]
  · simp [MakeSvc.call, hmk, hint]

/-- C8, witness: dispatch through the `A` variant equals the underlying
service's own call, and with an interceptor configured `MakeSvc::call`
produces the `B` variant boxing the same wrapped service. -/
theorem C8_witness :
    EitherSvc.call (Either.a (natService, 0)) 5 =
      (Except.ok 6, Either.a (natService, 1)) ∧
    (MakeSvc.call id id ⟨some natInterceptor, natFactory⟩ 0).1 =
      Except.ok (Either.b (natInterceptor (BoxService.new (Svc id natService) 0))) :=
  ⟨(C8_either_dispatch natService 0 (BoxService.new natService 0) 5
      ⟨some natInterceptor, natFactory⟩ id id 0 1 natService 0 rfl).2.1,
   (C8_either_dispatch natService 0 (BoxService.new natService 0) 5
      ⟨some natInterceptor, natFactory⟩ id id 0 1 natService 0
      rfl).2.2.2.2.2 natInterceptor rfl⟩

/-- C9: whenever `serve` returns a value at all (rather than panicking),
that value is `Ok(())`: the only `return` of the source is the final
`Ok(())` at server.rs line 105; every failure path is unwrapped or
becomes an item of the incoming stream. -/
theorem C9_serve_returns_only_ok_unit
    (b : Builder Req Res CE) (inner : MakeFactory σM σ Req Res ME E)
    (into : E → CE) (intoM : ME → CE) (intoE boxE : HE → CE)
    (tlsNew : Cert → Except CE (TlsAcceptor Conn TlsIo CE))
    (bindRes : Except HE (List (Except HE Conn))) (s0 : σM)
    (v : Except CE Unit)
    (h : b.serve inner into intoM intoE boxE tlsNew bindRes s0 =
      RustOutcome.ok v) :
    v = Except.ok () := by
  unfold Builder.serve at h
  split at h
  · exact absurd h (by simp)
  · split at h
    · exact absurd h (by simp)
    · exact (RustOutcome.ok.inj h).symm

/-- C9, witness: a concrete run that does return returns exactly
`Ok(())`. -/
theorem C9_witness :
    Builder.serve ⟨none, none⟩ natFactory id id id id tlsNewOk
      (Except.ok [Except.ok 4]) 0 = RustOutcome.ok (Except.ok ()) ∧
    (Except.ok () : Except Nat Unit) = Except.ok () :=
  ⟨rfl,
   C9_serve_returns_only_ok_unit ⟨none, none⟩ natFactory id id id id tlsNewOk
     (Except.ok [Except.ok 4]) 0 (Except.ok ()) rfl⟩

/-- C10: `MakeSvc::poll_ready` forwards the wrapped factory's readiness
verbatim — same state evolution, the result is the factory's result with
the error converted by `Into`, so it is `Pending` exactly when the
factory's is and `Ready(Ok)` exactly when the factory's is. -/
theorem C10_pollready_forwarded
    (m : MakeSvc σM σ Req Res ME E CE) (intoM : ME → CE) (s : σM) :
    (MakeSvc.pollReady intoM m s).1 =
      (m.inner.pollReady s).1.map (Except.mapError intoM) ∧
    (MakeSvc.pollReady intoM m s).2 = (m.inner.pollReady s).2 ∧
    ((MakeSvc.pollReady intoM m s).1 = Poll.pending ↔
      (m.inner.pollReady s).1 = Poll.pending) ∧
    ((MakeSvc.pollReady intoM m s).1 = Poll.ready (Except.ok ()) ↔
      (m.inner.pollReady s).1 = Poll.ready (Except.ok ())) := by
  refine ⟨rfl, rfl, ?_, ?_⟩
  · cases hp : (m.inner.pollReady s).1 <;>
      simp [MakeSvc.pollReady, hp, Poll.map]
  · cases hp : (m.inner.pollReady s).1 with
    | ready x =>
      cases x <;> simp [MakeSvc.pollReady, hp, Poll.map, Except.mapError]
    | pending => simp [MakeSvc.pollReady, hp, Poll.map]

end Tonic
